import Mathlib

/-!
Verification development for the Conduit LLM gateway.

Each definition is a shallow embedding of the corresponding Python
function in the repository; file and symbol names are given in the
doc comments.  Machine reals (Python floats / Decimals) are modeled
as rationals, wall-clock instants as integers (seconds), and the
regular-expression / SHA-256 / embedding primitives — which have no
shallow translation — as explicit oracle parameters or injective
string pairings, noted where they occur.
-/

namespace Conduit

/-! ### Circuit breaker — `core/router/health.py` -/

/-- Circuit state, `CircuitState` in the source. -/
inductive CircuitState
  | closed
  | opened
  | halfOpen
  deriving DecidableEq, Repr

/-- Health fields of a `ModelDeployment` row, the only fields the
circuit breaker reads or writes. -/
structure Deployment where
  is_healthy : Bool
  consecutive_failures : Nat
  cooldown_until : Option Int
  deriving DecidableEq, Repr

/-- Configuration of `CircuitBreaker.__init__`. -/
structure CircuitBreaker where
  failure_threshold : Nat
  cooldown_seconds : Int
  deriving DecidableEq, Repr

/-- Defaults `failure_threshold=3`, `cooldown_seconds=60`. -/
def defaultBreaker : CircuitBreaker := ⟨3, 60⟩

/-- `CircuitBreaker.get_state`: `datetime.now` is passed explicitly as
`now`.  A falsy (`None`) `cooldown_until` falls through to HALF_OPEN,
as in the Python `if deployment.cooldown_until and ...` test. -/
def get_state (now : Int) (d : Deployment) : CircuitState :=
  if d.is_healthy then .closed
  else
    match d.cooldown_until with
    | some t => if t > now then .opened else .halfOpen
    | none => .halfOpen

/-- `CircuitBreaker.is_available`. -/
def is_available (now : Int) (d : Deployment) : Bool :=
  match get_state now d with
  | .closed => true
  | .halfOpen => true
  | .opened => false

/-- `CircuitBreaker.record_success` (logging elided; the DB flush is
the returned record). -/
def record_success (d : Deployment) : Deployment :=
  if d.consecutive_failures > 0 || !d.is_healthy then
    { d with consecutive_failures := 0, is_healthy := true, cooldown_until := none }
  else d

/-- `CircuitBreaker.record_failure`: increment first, then branch on
the state computed from the incremented record. -/
def record_failure (cb : CircuitBreaker) (now : Int) (d : Deployment) : Deployment :=
  let d1 : Deployment := { d with consecutive_failures := d.consecutive_failures + 1 }
  match get_state now d1 with
  | .halfOpen =>
      { d1 with is_healthy := false,
                cooldown_until := some (now + cb.cooldown_seconds * 2) }
  | _ =>
      if d1.consecutive_failures ≥ cb.failure_threshold then
        { d1 with is_healthy := false,
                  cooldown_until := some (now + cb.cooldown_seconds) }
      else d1

/-- `i` consecutive `record_failure` calls, the `k`-th at time `times k`. -/
def iterFailures (cb : CircuitBreaker) (times : Nat → Int) : Nat → Deployment → Deployment
  | 0, d => d
  | n + 1, d => record_failure cb (times n) (iterFailures cb times n d)

/-! ### Cost calculator — `core/cost/calculator.py`, `core/cost/pricing.py` -/

/-- Round-half-even on rationals, the default rounding of Python
`Decimal.quantize`. -/
def roundHalfEven (x : ℚ) : ℤ :=
  let f := ⌊x⌋
  let r := x - f
  if r < 1/2 then f
  else if 1/2 < r then f + 1
  else if f % 2 = 0 then f else f + 1

/-- `Decimal.quantize(Decimal("0.00000001"))`: round to 8 fractional
digits. -/
def quantize8 (x : ℚ) : ℚ := (roundHalfEven (x * 100000000) : ℚ) / 100000000

/-- One row of `config/pricing/models.json`. -/
structure ModelPricing where
  input_cost_per_1m : ℚ
  output_cost_per_1m : ℚ
  deriving DecidableEq, Repr

/-- `get_model_pricing` over the configured table: the JSON file is
deployment configuration, so the table is a parameter. -/
abbrev PricingTable := String → Option ModelPricing

/-- `calculate_cost` from `core/cost/calculator.py`. -/
def calculate_cost (pricing : PricingTable) (model : String)
    (prompt_tokens completion_tokens : ℕ) : ℚ :=
  match pricing model with
  | none => 0
  | some p =>
      let input_cost := p.input_cost_per_1m * prompt_tokens / 1000000
      let output_cost := p.output_cost_per_1m * completion_tokens / 1000000
      quantize8 (input_cost + output_cost)

/-! ### Chat messages and prompt normalization — `core/cache/embedding.py` -/

/-- A content block of a message: only the optional `"text"` entry is
observed by the cache and guardrail code modeled here. -/
structure ContentBlock where
  text : Option String
  deriving DecidableEq, Repr

/-- The `content` field of a chat message: a plain string or a list of
content blocks. -/
inductive MsgContent
  | str (s : String)
  | blocks (bs : List ContentBlock)
  deriving DecidableEq, Repr

/-- A chat message as the dict the service passes around (`role`
defaults to the empty string when absent). -/
structure Msg where
  role : String
  content : MsgContent
  deriving DecidableEq, Repr

/-- Python `str.strip()`: leading and trailing whitespace removed. -/
def pyStrip (s : String) : String :=
  String.mk (((s.data.dropWhile Char.isWhitespace).reverse.dropWhile
    Char.isWhitespace).reverse)

/-- `normalize_prompt_for_embedding`: newline-joined `"role: text"`
parts over non-system messages; block contents contribute one part per
block carrying a `"text"` entry. -/
def normalize_prompt_for_embedding (messages : List Msg) : String :=
  let parts : List String := (messages.map (fun msg =>
    if msg.role = "system" then []
    else
      match msg.content with
      | .str s => [msg.role ++ ": " ++ s]
      | .blocks bs =>
          bs.filterMap (fun b => b.text.map (fun t => msg.role ++ ": " ++ t)))).flatten
  String.intercalate "\n" parts

/-! ### Response payloads

The orchestrator round-trips payloads through JSON unchanged
(`ChatCompletionResponse(**payload)` / `response.model_dump()`), so a
payload is identified with the response value it parses to; of that
value the core only reads the usage counters and the first choice's
assistant text. -/

/-- The `usage` object of a completion response. -/
structure Usage where
  prompt_tokens : Nat
  completion_tokens : Nat
  total_tokens : Nat
  deriving DecidableEq, Repr

/-- A chat-completion response: `content` is
`choices[0].message.content`. -/
structure ChatCompletionResponse where
  content : String
  usage : Usage
  deriving DecidableEq, Repr

/-- A serialized response payload, identified with its parse. -/
abbrev Payload := ChatCompletionResponse

/-! ### Tier-1 exact cache — `core/cache/exact.py` -/

/-- `ExactMatchCache.compute_hash` hashes `f"{model}::{prompt_text}"`
with SHA-256.  SHA-256 has no shallow translation and every consumer
only compares digests for equality, so the digest is modeled by its
preimage string (injective up to hash collisions). -/
def compute_hash (prompt_text model : String) : String :=
  model ++ "::" ++ prompt_text

/-- The Redis keyspace of the exact tier, as an association list; the
fixed key namespace string is dropped.  Per-entry TTL is Redis-side
and not observed by any modeled consumer. -/
abbrev ExactTier := List (String × Payload)

/-- `ExactMatchCache.get` (reachable-KV path). -/
def exactGet (tier : ExactTier) (key : String) : Option Payload :=
  (tier.find? (fun kv => kv.1 == key)).map (fun kv => kv.2)

/-- `ExactMatchCache.set` (reachable-KV path): Redis `SETEX` overwrites
the key. -/
def exactSet (tier : ExactTier) (key : String) (payload : Payload) : ExactTier :=
  (key, payload) :: tier.filter (fun kv => !(kv.1 == key))

/-- `ExactMatchCache.clear` (reachable-KV path): `scan_iter` matches
every key under the cache namespace and each one is deleted; the
`model` argument is accepted but never consulted.  Returns the number
of deleted keys. -/
def exactClear (_model : Option String) (tier : ExactTier) : ExactTier × Nat :=
  ([], tier.length)

/-! ### Tier-2 semantic cache — `core/cache/semantic.py` -/

/-- A `cache_entries` row; `prompt_embedding` is carried implicitly by
the distance oracle of each lookup. -/
structure CacheEntry where
  prompt_hash : String
  model : String
  prompt_text : String
  response_payload : Payload
  prompt_tokens : Nat
  completion_tokens : Nat
  hit_count : Nat
  cost_saved_usd : ℚ
  expires_at : Int
  deriving DecidableEq, Repr

/-- The SQL row filter of `SemanticCache.lookup`: same model, not yet
expired, and cosine distance strictly below `1 - threshold` (the query
is `cosine_distance(...) < max_distance`). -/
def semanticAccepts (model : String) (now : Int) (threshold : ℚ)
    (dist : CacheEntry → ℚ) (e : CacheEntry) : Prop :=
  e.model = model ∧ e.expires_at > now ∧ dist e < 1 - threshold

instance (model : String) (now : Int) (threshold : ℚ) (dist : CacheEntry → ℚ)
    (e : CacheEntry) : Decidable (semanticAccepts model now threshold dist e) := by
  unfold semanticAccepts; exact inferInstance

/-- `ORDER BY distance ASC LIMIT 1` over the filtered rows: the first
row of minimal distance. -/
def selectMinDist (dist : CacheEntry → ℚ) : List CacheEntry → Option CacheEntry
  | [] => none
  | c :: cs => some (cs.foldl (fun best e => if dist e < dist best then e else best) c)

/-- The row `SemanticCache.lookup` reads back, before the hit-side
updates. -/
def semanticSelect (entries : List CacheEntry) (model : String) (now : Int)
    (threshold : ℚ) (dist : CacheEntry → ℚ) : Option CacheEntry :=
  selectMinDist dist
    (entries.filter (fun e => decide (semanticAccepts model now threshold dist e)))

/-- The in-place update on a hit: `entry.hit_count += 1;
entry.cost_saved_usd += float(cost)` with
`cost = calculate_cost(model, entry.prompt_tokens, entry.completion_tokens)`. -/
def bumpEntry (pricing : PricingTable) (model : String) (e : CacheEntry) : CacheEntry :=
  { e with
    hit_count := e.hit_count + 1,
    cost_saved_usd := e.cost_saved_usd
      + calculate_cost pricing model e.prompt_tokens e.completion_tokens }

/-- `SemanticCache.lookup` with the caller's resolved threshold,
returning the (updated) matched row and the updated table.  The
embedding computation is uninterpretable, so the distance of each
stored row to the query embedding is the oracle `dist`.  The ORM
mutates the selected row in place; here every table row equal to it is
rewritten. -/
def semantic_lookup (pricing : PricingTable) (entries : List CacheEntry)
    (messages : List Msg) (model : String) (now : Int) (threshold : ℚ)
    (dist : CacheEntry → ℚ) : Option CacheEntry × List CacheEntry :=
  let prompt_text := normalize_prompt_for_embedding messages
  if pyStrip prompt_text = "" then (none, entries)
  else
    match semanticSelect entries model now threshold dist with
    | none => (none, entries)
    | some e =>
        let bumped := bumpEntry pricing model e
        (some bumped, entries.map (fun x => if x = e then bumped else x))

/-- `SemanticCache.store`: appends a fresh row with
`hit_count = 0`, `cost_saved_usd = 0`,
`expires_at = now + ttl`. -/
def semantic_store (entries : List CacheEntry) (messages : List Msg) (model : String)
    (response_payload : Payload) (prompt_tokens completion_tokens : Nat)
    (now : Int) (ttl : Int) : List CacheEntry :=
  let prompt_text := normalize_prompt_for_embedding messages
  entries ++ [{ prompt_hash := compute_hash prompt_text model
                model := model
                prompt_text := prompt_text
                response_payload := response_payload
                prompt_tokens := prompt_tokens
                completion_tokens := completion_tokens
                hit_count := 0
                cost_saved_usd := 0
                expires_at := now + ttl }]

/-- `SemanticCache.clear`: `if model:` is Python truthiness, so both
`None` and the empty string delete every row; otherwise only rows of
that model are deleted.  Returns the deleted row count. -/
def semantic_clear (model : Option String) (entries : List CacheEntry) :
    List CacheEntry × Nat :=
  match model with
  | some m =>
      if m = "" then ([], entries.length)
      else (entries.filter (fun e => !(e.model == m)),
            (entries.filter (fun e => e.model == m)).length)
  | none => ([], entries.length)

/-! ### Cache manager — `core/cache/manager.py` -/

/-- Both cache tiers. -/
structure CacheState where
  exact : ExactTier
  semantic : List CacheEntry
  deriving DecidableEq, Repr

/-- `CacheResult`. -/
structure CacheResult where
  hit : Bool
  response_payload : Option Payload
  source : String
  similarity : ℚ
  deriving DecidableEq, Repr

/-- A `CacheManager.lookup` call together with its observable tier
traffic: the Tier-1 keys read and whether the Tier-2 query ran. -/
structure LookupOutcome where
  result : CacheResult
  state : CacheState
  exactReads : List String
  semanticQueried : Bool
  deriving DecidableEq, Repr

/-- `CacheManager.lookup`. -/
def manager_lookup (enabled : Bool) (pricing : PricingTable) (st : CacheState)
    (messages : List Msg) (model : String) (now : Int) (threshold : ℚ)
    (dist : CacheEntry → ℚ) : LookupOutcome :=
  if !enabled then ⟨⟨false, none, "none", 0⟩, st, [], false⟩
  else
    let prompt_text := normalize_prompt_for_embedding messages
    if pyStrip prompt_text = "" then ⟨⟨false, none, "none", 0⟩, st, [], false⟩
    else
      let prompt_hash := compute_hash prompt_text model
      match exactGet st.exact prompt_hash with
      | some payload =>
          ⟨⟨true, some payload, "exact", 1⟩, st, [prompt_hash], false⟩
      | none =>
          match semantic_lookup pricing st.semantic messages model now threshold dist with
          | (some e, semantic2) =>
              ⟨⟨true, some e.response_payload, "semantic", 0⟩,
               ⟨exactSet st.exact prompt_hash e.response_payload, semantic2⟩,
               [prompt_hash], true⟩
          | (none, _) => ⟨⟨false, none, "none", 0⟩, st, [prompt_hash], true⟩

/-- `CacheManager.store` (write-succeeds path): populate both tiers. -/
def manager_store (enabled : Bool) (st : CacheState) (messages : List Msg)
    (model : String) (response_payload : Payload)
    (prompt_tokens completion_tokens : Nat) (now : Int)
    (semantic_ttl : Int) : CacheState :=
  if !enabled then st
  else
    let prompt_text := normalize_prompt_for_embedding messages
    if pyStrip prompt_text = "" then st
    else
      let prompt_hash := compute_hash prompt_text model
      ⟨exactSet st.exact prompt_hash response_payload,
       semantic_store st.semantic messages model response_payload
         prompt_tokens completion_tokens now semantic_ttl⟩

/-- `CacheManager.clear`: clears both tiers and reports the per-tier
deleted counts. -/
def manager_clear (model : Option String) (st : CacheState) :
    CacheState × (Nat × Nat) :=
  let ec := exactClear model st.exact
  let sc := semantic_clear model st.semantic
  (⟨ec.1, sc.1⟩, (ec.2, sc.2))

/-! ### Rate limiter — `core/auth/rate_limiter.py` -/

/-- `RateLimitResult`. -/
structure RateLimitResult where
  allowed : Bool
  limit : Nat
  remaining : Int
  reset_seconds : ℚ
  deriving DecidableEq, Repr

/-- `RateLimitResult.to_headers`; the `%.1f` rendering of
`reset_seconds` is abstracted to the rational's decimal string. -/
def to_headers (r : RateLimitResult) (kind : String) : List (String × String) :=
  [("x-ratelimit-limit-" ++ kind, toString r.limit),
   ("x-ratelimit-remaining-" ++ kind, toString (max 0 r.remaining)),
   ("x-ratelimit-reset-" ++ kind, toString r.reset_seconds)]

/-- One execution of the atomic sliding-window Redis script — its
returned `(is_rejected, current_count, ttl_remaining)` triple — or a
connection failure. -/
inductive RedisOutcome
  | ok (rejected : Bool) (current : Nat) (reset : ℚ)
  | connectionError
  deriving DecidableEq, Repr

/-- `RateLimiter.check` with the KV interaction as the `outcome`
oracle.  The second component records whether the unreachable-KV
warning was logged.  The `ResponseError` reload-and-retry path re-runs
the `ok` computation and is folded into it. -/
def rate_check (outcome : RedisOutcome) (limit : Nat) : RateLimitResult × Bool :=
  match outcome with
  | .ok rejected current reset =>
      (⟨!rejected, limit, (limit : Int) - current, max 0 reset⟩, false)
  | .connectionError =>
      (⟨true, limit, (limit : Int), 0⟩, true)

/-- Error taxonomy of `common/errors.py`, restricted to the kinds the
modeled pipeline can raise. -/
inductive GatewayError
  | rateLimited (retry_after : ℚ)
  | modelNotAllowed
  | budgetExceeded
  | validationBlocked
  | noHealthyDeployment (message : String)
  | providerFailure (message : String)
  deriving DecidableEq, Repr

/-- `RateLimiter.check_or_raise`. -/
def check_or_raise (outcome : RedisOutcome) (limit : Nat) :
    Except GatewayError (RateLimitResult × Bool) :=
  let r := rate_check outcome limit
  if r.1.allowed then .ok r else .error (.rateLimited r.1.reset_seconds)

/-! ### Principals — `models/api_key.py`, `api/deps.py` -/

/-- The fields of an `APIKey` row the modeled pipeline reads. -/
structure APIKey where
  id : String
  key_hash : String
  allowed_models : Option (List String)
  budget_limit_usd : Option ℚ
  spend_usd : ℚ
  rate_limit_rpm : Option Nat
  rate_limit_tpm : Option Nat
  deriving DecidableEq, Repr

/-- `_synthetic_admin_key` from `api/deps.py`: the principal the
gateway fabricates for the master secret. -/
def syntheticAdminKey : APIKey :=
  { id := "00000000-0000-0000-0000-000000000000"
    key_hash := "master"
    allowed_models := none
    budget_limit_usd := none
    spend_usd := 0
    rate_limit_rpm := none
    rate_limit_tpm := none }

/-- `CompletionService._check_rate_limits`: the returned header set,
the rpm check result, and whether a fail-open warning was logged.
Python truthiness makes both a missing and a zero `rate_limit_rpm`
skip the check. -/
def check_rate_limits (api_key : APIKey) (outcome : RedisOutcome) :
    Except GatewayError (List (String × String) × Option RateLimitResult × Bool) :=
  if api_key.key_hash = "master" then .ok ([], none, false)
  else
    match api_key.rate_limit_rpm with
    | none => .ok ([], none, false)
    | some limit =>
        if limit = 0 then .ok ([], none, false)
        else
          match check_or_raise outcome limit with
          | .error e => .error e
          | .ok (r, warned) => .ok (to_headers r "requests", some r, warned)

/-! ### Injection detection — `core/guardrails/injection.py` -/

/-- `InjectionDetection`; the `matched_pattern` and `explanation`
display strings are elided. -/
structure InjectionDetection where
  name : String
  score : ℚ
  deriving DecidableEq, Repr

/-- `InjectionScanResult`. -/
structure InjectionScanResult where
  is_injection : Bool
  score : ℚ
  threshold : ℚ
  detections : List InjectionDetection
  deriving DecidableEq, Repr

/-- `_INJECTION_PATTERNS`: the nine built-in detectors with the scores
from the source table.  The regular expressions themselves have no
shallow translation; each is referenced by its source name and
interpreted by the oracle below. -/
def injectionPatterns : List (String × ℚ) :=
  [("ignore_instructions", 0.95),
   ("new_instructions", 0.90),
   ("do_not_follow", 0.90),
   ("pretend_to_be", 0.85),
   ("you_are_now", 0.90),
   ("reveal_system_prompt", 0.80),
   ("delimiter_injection", 0.90),
   ("jailbreak_dan", 0.95),
   ("token_smuggling", 0.75)]

/-- The four structural markers of `_detect_structural_injection`,
named, with the source scores. -/
def structuralMarkers : List (String × ℚ) :=
  [("hash_role_heading", 0.80),
   ("xml_role_tag", 0.85),
   ("bracket_inst_marker", 0.80),
   ("role_colon_newline", 0.50)]

/-- Oracle for the regex / base64 / unicode primitives of the scanner:
whether a named built-in pattern matches a text, whether an extra
DB-rule pattern matches (`none` models `re.error`), whether some
base64-decodable substring decodes to a keyword hit, whether the text
mixes Cyrillic and Latin script, and whether a named structural marker
matches. -/
structure RegexOracle where
  patternMatches : String → String → Bool
  extraSearch : String → String → Option Bool
  base64Keyword : String → Option String
  mixedScript : String → Bool
  structMatches : String → String → Bool

/-- `_detect_encoded_injection`. -/
def detect_encoded_injection (O : RegexOracle) (text : String) : InjectionDetection :=
  match O.base64Keyword text with
  | some _ => ⟨"encoding_evasion", 0.85⟩
  | none =>
      if O.mixedScript text then ⟨"encoding_evasion", 0.60⟩
      else ⟨"encoding_evasion", 0⟩

/-- `_detect_structural_injection`: running maximum over the markers,
updated on a strictly larger score. -/
def detect_structural_injection (O : RegexOracle) (text : String) : InjectionDetection :=
  let max_score := structuralMarkers.foldl
    (fun m p => if O.structMatches p.1 text then (if m < p.2 then p.2 else m) else m)
    (0 : ℚ)
  ⟨"structural_injection", max_score⟩

/-- Python `max(scores, default=0.0)`: no zero-clamping on a nonempty
list. -/
def pyMaxScore (ds : List InjectionDetection) : ℚ :=
  match ds with
  | [] => 0
  | d :: rest => rest.foldl (fun m x => max m x.score) d.score

/-- `scan_injection`. -/
def scan_injection (O : RegexOracle) (text : String) (threshold : ℚ)
    (extra : List (String × String × ℚ)) : InjectionScanResult :=
  let layer1 := injectionPatterns.filterMap
    (fun p => if O.patternMatches p.1 text then
        some (⟨p.1, p.2⟩ : InjectionDetection) else none)
  let extraDets := extra.filterMap
    (fun p => match O.extraSearch p.2.1 text with
      | some true => some (⟨p.1, p.2.2⟩ : InjectionDetection)
      | some false => none
      | none => none)
  let enc := detect_encoded_injection O text
  let strl := detect_structural_injection O text
  let detections := layer1 ++ extraDets
      ++ (if enc.score > 0 then [enc] else [])
      ++ (if strl.score > 0 then [strl] else [])
  let overall := pyMaxScore detections
  ⟨decide (overall ≥ threshold), overall, threshold, detections⟩

/-- The texts `scan_messages_injection` extracts from one message:
none for a system message, the whole string content, or each block's
`"text"` entry. -/
def messageScanTexts (msg : Msg) : List String :=
  if msg.role = "system" then []
  else
    match msg.content with
    | .str s => [s]
    | .blocks bs => bs.filterMap (fun b => b.text)

/-- `scan_messages_injection`: per-text scans (with no extra
patterns), concatenated detections, and the running maximum of the
per-text scores starting from `0.0`. -/
def scan_messages_injection (O : RegexOracle) (messages : List Msg) (threshold : ℚ) :
    InjectionScanResult :=
  let results := ((messages.map messageScanTexts).flatten).map
    (fun s => scan_injection O s threshold [])
  let all_detections := (results.map (fun r => r.detections)).flatten
  let max_score := results.foldl (fun m r => max m r.score) 0
  ⟨decide (max_score ≥ threshold), max_score, threshold, all_detections⟩

/-! ### Completion orchestrator — `CompletionService` in
`schemas/completion.py`

The service composes auth checks, rate limiting, guardrails, cache,
router and adapters.  DB/HTTP collaborators enter as oracle fields of
`Env`; the circuit-breaker record calls, latency measurement and log
emission to the logger are elided.  Effects are collected explicitly:
appended request-log rows, the principal's spend after the call, the
rate-limit identifiers checked, the TPM updates recorded, the cache
state after the call, and an ordered trace of the side-effecting
pipeline steps executed. -/

/-- The request fields the orchestrator reads. -/
structure ChatCompletionRequest where
  model : String
  messages : List Msg
  stream : Bool
  deriving DecidableEq, Repr

/-- A `RequestLog` row (id, latency and metadata columns elided). -/
structure RequestLog where
  request_id : String
  api_key_id : Option String
  deployment_id : Option String
  model : String
  provider : String
  prompt_tokens : Nat
  completion_tokens : Nat
  cost_usd : ℚ
  status_code : Nat
  cached : Bool
  deriving DecidableEq, Repr

/-- The fields of a `ModelDeployment` row the orchestrator reads
(health fields live in `Deployment` above). -/
structure DeploymentInfo where
  id : String
  name : String
  provider : String
  deriving DecidableEq, Repr

/-- `ProviderError`. -/
structure ProviderError where
  message : String
  deriving DecidableEq, Repr

/-- What one `adapter.stream` consumption does, as observed by the
accumulator: a clean close (with the usage the provider reported — `0`
components when absent — and the assembled text), a `ProviderError`
raised before any chunk was forwarded, or one raised after at least
one chunk. -/
inductive StreamOutcome
  | clean (prompt_tokens completion_tokens : Nat) (content : String)
  | failEarly (e : ProviderError)
  | failMid (e : ProviderError) (prompt_tokens completion_tokens : Nat) (content : String)
  deriving DecidableEq, Repr

/-- `CompletionResult` (latency elided). -/
structure CompletionResult where
  response : ChatCompletionResponse
  cost_usd : ℚ
  provider : String
  deployment_name : String
  cached : Bool
  rate_limit_headers : List (String × String)
  guardrail_warnings : List String
  deriving DecidableEq, Repr

/-- The ordered side-effecting steps of the pipeline, for tracing
which of the numbered spec steps a path executes. -/
inductive PipelineStep
  | accessCheck
  | rateLimitCheck
  | preGuardrails
  | cacheLookup
  | providerCall
  | postGuardrails
  | costCalc
  | spendUpdate
  | tpmRecord
  | cacheStore
  | logAppend
  deriving DecidableEq, Repr

/-- Oracle for the guardrail engine: `pre` is `run_pre_request`
(an `error` is a blocking `ValidationError`; on success the optional
redacted replacement messages and the violation details), `post` is
`run_post_response` (violation details; it never raises). -/
structure GuardrailOracle where
  enabled : Bool
  pre : List Msg → String → Except GatewayError (Option (List Msg) × List String)
  post : String → String → List String

/-- The environment of one orchestrator call: configuration plus the
oracles for DB, KV, router and upstream interactions. -/
structure Env where
  guardrails : GuardrailOracle
  cacheEnabled : Bool
  pricing : PricingTable
  threshold : ℚ
  dist : List Msg → CacheEntry → ℚ
  semanticTtl : Int
  now : Int
  route : Except GatewayError (List DeploymentInfo)
  send : DeploymentInfo → Except ProviderError ChatCompletionResponse
  rlOutcome : RedisOutcome
  countTokens : String → String → Nat
  countMessageTokens : List Msg → String → Nat
  streamOutcome : DeploymentInfo → StreamOutcome

/-- Observable effects of one `create_completion` call. -/
structure CompletionEffects where
  result : Except GatewayError CompletionResult
  logs : List RequestLog
  spend_usd : ℚ
  rlChecked : List String
  tpmUpdates : List (String × Nat)
  cache : CacheState
  trace : List PipelineStep
  deriving Repr

/-- `check_model_access` from `core/auth/api_key.py`. -/
def check_model_access (api_key : APIKey) (model : String) : Except GatewayError Unit :=
  match api_key.allowed_models with
  | none => .ok ()
  | some allowed => if model ∈ allowed then .ok () else .error .modelNotAllowed

/-- `check_budget` from `core/auth/api_key.py`. -/
def check_budget (api_key : APIKey) : Except GatewayError Unit :=
  match api_key.budget_limit_usd with
  | none => .ok ()
  | some lim =>
      if api_key.spend_usd ≥ lim then .error .budgetExceeded else .ok ()

/-- The rate-limit identifiers for which `_check_rate_limits` executes
a KV check: none for the master principal or when no (truthy) RPM
limit is configured. -/
def rlIdentifiers (api_key : APIKey) : List String :=
  if api_key.key_hash = "master" then []
  else
    match api_key.rate_limit_rpm with
    | none => []
    | some l => if l = 0 then [] else ["rpm:key:" ++ api_key.id]

/-- `CompletionService._update_token_usage`: the TPM bucket updates it
records (none for the master principal or without a truthy TPM
limit). -/
def update_token_usage (api_key : APIKey) (total_tokens : Nat) : List (String × Nat) :=
  if api_key.key_hash = "master" then []
  else
    match api_key.rate_limit_tpm with
    | none => []
    | some l => if l = 0 then [] else [("tpm:key:" ++ api_key.id, total_tokens)]

/-- The `api_key_id` column the service writes:
`api_key.id if api_key.key_hash != "master" else None`. -/
def logKeyId (api_key : APIKey) : Option String :=
  if api_key.key_hash = "master" then none else some api_key.id

/-- Step 3 of the pipeline: the effective (possibly redacted) messages
and accumulated warnings after pre-request guardrails.  Python
truthiness: substitution happens only when the modified list is
non-`None` and nonempty. -/
def effectiveMessages (env : Env) (request : ChatCompletionRequest) :
    Except GatewayError (List Msg × List String) :=
  if env.guardrails.enabled then
    match env.guardrails.pre request.messages request.model with
    | .error e => .error e
    | .ok (modified, warnings) =>
        match modified with
        | some (m :: ms) => .ok (m :: ms, warnings)
        | _ => .ok (request.messages, warnings)
  else .ok (request.messages, [])

/-- Step 6: the fallback loop over the deployment chain.  On total
failure the error is the last `ProviderError` raised (`none` when the
chain was empty). -/
def try_deployments (send : DeploymentInfo → Except ProviderError ChatCompletionResponse) :
    List DeploymentInfo → Except (Option ProviderError) (DeploymentInfo × ChatCompletionResponse)
  | [] => .error none
  | d :: rest =>
      match send d with
      | .ok r => .ok (d, r)
      | .error e =>
          match try_deployments send rest with
          | .ok x => .ok x
          | .error none => .error (some e)
          | .error (some e2) => .error (some e2)

/-- Steps 5–11 of `create_completion`, after the cache phase: route,
fallback loop, post-response guardrails, cost, spend, TPM, cache
store, request log. -/
def completion_tail (env : Env) (request : ChatCompletionRequest) (api_key : APIKey)
    (request_id : String) (messages : List Msg) (warnings : List String)
    (rl_headers : List (String × String)) (st : CacheState)
    (trace0 : List PipelineStep) : CompletionEffects :=
  match env.route with
  | .error e =>
      ⟨.error e, [], api_key.spend_usd, rlIdentifiers api_key, [], st, trace0⟩
  | .ok chain =>
      match try_deployments env.send chain with
      | .error lastError =>
          let err := match lastError with
            | some e => GatewayError.providerFailure e.message
            | none => GatewayError.noHealthyDeployment
                ("All deployments failed for model " ++ request.model)
          ⟨.error err, [], api_key.spend_usd, rlIdentifiers api_key, [], st, trace0⟩
      | .ok (d, response) =>
          let postWarnings :=
            if env.guardrails.enabled then
              env.guardrails.post response.content request.model
            else []
          let warnings2 := warnings ++ postWarnings
          let cost := calculate_cost env.pricing request.model
            response.usage.prompt_tokens response.usage.completion_tokens
          let spend2 :=
            if api_key.key_hash = "master" then api_key.spend_usd
            else api_key.spend_usd + cost
          let tpm := update_token_usage api_key response.usage.total_tokens
          let st2 :=
            manager_store env.cacheEnabled st messages request.model response
              response.usage.prompt_tokens response.usage.completion_tokens
              env.now env.semanticTtl
          let log_entry : RequestLog :=
            { request_id := request_id
              api_key_id := logKeyId api_key
              deployment_id := some d.id
              model := request.model
              provider := d.provider
              prompt_tokens := response.usage.prompt_tokens
              completion_tokens := response.usage.completion_tokens
              cost_usd := cost
              status_code := 200
              cached := false }
          let trace := trace0 ++ [PipelineStep.providerCall]
            ++ (if env.guardrails.enabled then [PipelineStep.postGuardrails] else [])
            ++ [PipelineStep.costCalc]
            ++ (if api_key.key_hash = "master" then [] else [PipelineStep.spendUpdate])
            ++ (if tpm = [] then [] else [PipelineStep.tpmRecord])
            ++ (if env.cacheEnabled then [PipelineStep.cacheStore] else [])
            ++ [PipelineStep.logAppend]
          ⟨.ok ⟨response, cost, d.provider, d.name, false, rl_headers, warnings2⟩,
           [log_entry], spend2, rlIdentifiers api_key, tpm, st2, trace⟩

/-- Step 4 onwards of `create_completion`: the cache phase, falling
through to `completion_tail` on a miss. -/
def completion_cache_phase (env : Env) (request : ChatCompletionRequest)
    (api_key : APIKey) (request_id : String) (messages : List Msg)
    (warnings : List String) (rl_headers : List (String × String))
    (st : CacheState) (trace0 : List PipelineStep) : CompletionEffects :=
  if env.cacheEnabled && !request.stream then
    let L := manager_lookup env.cacheEnabled env.pricing st messages request.model
      env.now env.threshold (env.dist messages)
    let trace1 := trace0 ++ [PipelineStep.cacheLookup]
    match L.result.hit, L.result.response_payload with
    | true, some payload =>
        let log_entry : RequestLog :=
          { request_id := request_id
            api_key_id := logKeyId api_key
            deployment_id := none
            model := request.model
            provider := "cache"
            prompt_tokens := payload.usage.prompt_tokens
            completion_tokens := payload.usage.completion_tokens
            cost_usd := 0
            status_code := 200
            cached := true }
        ⟨.ok ⟨payload, 0, "cache", "cache", true, rl_headers, warnings⟩,
         [log_entry], api_key.spend_usd, rlIdentifiers api_key, [], L.state,
         trace1 ++ [PipelineStep.logAppend]⟩
    | _, _ =>
        completion_tail env request api_key request_id messages warnings
          rl_headers L.state trace1
  else
    completion_tail env request api_key request_id messages warnings
      rl_headers st trace0

/-- `CompletionService.create_completion`: the full non-streaming
pipeline. -/
def create_completion (env : Env) (request : ChatCompletionRequest)
    (api_key : APIKey) (request_id : String) (st : CacheState) : CompletionEffects :=
  match check_model_access api_key request.model with
  | .error e => ⟨.error e, [], api_key.spend_usd, [], [], st, [.accessCheck]⟩
  | .ok _ =>
  match check_budget api_key with
  | .error e => ⟨.error e, [], api_key.spend_usd, [], [], st, [.accessCheck]⟩
  | .ok _ =>
  match check_rate_limits api_key env.rlOutcome with
  | .error e =>
      ⟨.error e, [], api_key.spend_usd, rlIdentifiers api_key, [], st,
       [.accessCheck, .rateLimitCheck]⟩
  | .ok (rl_headers, _, _) =>
  match effectiveMessages env request with
  | .error e =>
      ⟨.error e, [], api_key.spend_usd, rlIdentifiers api_key, [], st,
       [.accessCheck, .rateLimitCheck, .preGuardrails]⟩
  | .ok (messages, warnings) =>
      completion_cache_phase env request api_key request_id messages warnings
        rl_headers st
        ([.accessCheck, .rateLimitCheck]
          ++ (if env.guardrails.enabled then [PipelineStep.preGuardrails] else []))

/-! ### Streaming pipeline — `create_streaming_completion` and
`_stream_with_fallback` -/

/-- The deployment loop of `_stream_with_fallback`: the used
deployment, the accumulator data it left behind, and whether the
stream was interrupted after the first forwarded chunk; on total
failure, the last pre-chunk `ProviderError` (`none` for an empty
chain). -/
def stream_fallback_loop (outcome : DeploymentInfo → StreamOutcome) :
    List DeploymentInfo →
      Except (Option ProviderError) (DeploymentInfo × (Nat × Nat × String) × Bool)
  | [] => .error none
  | d :: rest =>
      match outcome d with
      | .clean p c s => .ok (d, (p, c, s), false)
      | .failMid _ p c s => .ok (d, (p, c, s), true)
      | .failEarly e =>
          match stream_fallback_loop outcome rest with
          | .ok x => .ok x
          | .error none => .error (some e)
          | .error (some e2) => .error (some e2)

/-- Observable effects of one complete `_stream_with_fallback`
generator run. -/
structure StreamEffects where
  logs : List RequestLog
  spend_usd : ℚ
  tpmUpdates : List (String × Nat)
  trace : List PipelineStep
  usedDeployment : Option DeploymentInfo
  interrupted : Bool
  deriving Repr

/-- `_stream_with_fallback`: chunk forwarding is transport; modeled
are the post-stream side effects.  When every deployment fails before
the first chunk the generator emits an inline error event and returns
with no side effects; otherwise it backfills missing token counts with
the local tokenizer, computes cost, updates spend (non-master),
records TPM usage and appends the request log. -/
def stream_with_fallback (env : Env) (request : ChatCompletionRequest)
    (api_key : APIKey) (request_id : String) (chain : List DeploymentInfo) :
    StreamEffects :=
  match stream_fallback_loop env.streamOutcome chain with
  | .error _ => ⟨[], api_key.spend_usd, [], [], none, false⟩
  | .ok (d, (p0, c0, content), interrupted) =>
      let completion_tokens :=
        if c0 = 0 ∧ content ≠ "" then env.countTokens content request.model else c0
      let prompt_tokens :=
        if p0 = 0 then env.countMessageTokens request.messages request.model else p0
      let cost := calculate_cost env.pricing request.model prompt_tokens completion_tokens
      let spend2 :=
        if api_key.key_hash = "master" then api_key.spend_usd
        else api_key.spend_usd + cost
      let tpm := update_token_usage api_key (prompt_tokens + completion_tokens)
      let log_entry : RequestLog :=
        { request_id := request_id
          api_key_id := logKeyId api_key
          deployment_id := some d.id
          model := request.model
          provider := d.provider
          prompt_tokens := prompt_tokens
          completion_tokens := completion_tokens
          cost_usd := cost
          status_code := 200
          cached := false }
      let trace := [PipelineStep.costCalc]
        ++ (if api_key.key_hash = "master" then [] else [PipelineStep.spendUpdate])
        ++ (if tpm = [] then [] else [PipelineStep.tpmRecord])
        ++ [PipelineStep.logAppend]
      ⟨[log_entry], spend2, tpm, trace, some d, interrupted⟩

/-- Effects of one `create_streaming_completion` call: its result (the
generator's effects plus the response headers) and which rate-limit
identifiers were checked. -/
structure StreamingCallEffects where
  result : Except GatewayError (StreamEffects × List (String × String))
  rlChecked : List String
  deriving Repr

/-- `CompletionService.create_streaming_completion`: access checks,
rate limit, pre-request guardrails (substituting redacted messages
into the request), route, then the generator. -/
def create_streaming_completion (env : Env) (request : ChatCompletionRequest)
    (api_key : APIKey) (request_id : String) : StreamingCallEffects :=
  match check_model_access api_key request.model with
  | .error e => ⟨.error e, []⟩
  | .ok _ =>
  match check_budget api_key with
  | .error e => ⟨.error e, []⟩
  | .ok _ =>
  match check_rate_limits api_key env.rlOutcome with
  | .error e => ⟨.error e, rlIdentifiers api_key⟩
  | .ok (rl_headers, _, _) =>
  match effectiveMessages env request with
  | .error e => ⟨.error e, rlIdentifiers api_key⟩
  | .ok (messages, _) =>
      let request2 := { request with messages := messages }
      match env.route with
      | .error e => ⟨.error e, rlIdentifiers api_key⟩
      | .ok chain =>
          ⟨.ok (stream_with_fallback env request2 api_key request_id chain, rl_headers),
           rlIdentifiers api_key⟩

/-! ## Theorems -/

/-! ### C1 — circuit-breaker transitions -/

lemma iterFailures_lt (cb : CircuitBreaker) (times : Nat → Int) :
    ∀ i, i < cb.failure_threshold →
      iterFailures cb times i ⟨true, 0, none⟩ = ⟨true, i, none⟩ := by
  intro i
  induction i with
  | zero => intro _; rfl
  | succ n ih =>
      intro h
      have hn : n < cb.failure_threshold := Nat.lt_of_succ_lt h
      have hnot : ¬ cb.failure_threshold ≤ n + 1 := Nat.not_le.mpr h
      simp [iterFailures, ih hn, record_failure, get_state, hnot]

lemma iterFailures_at_threshold (cb : CircuitBreaker) (times : Nat → Int)
    (hpos : 0 < cb.failure_threshold) :
    iterFailures cb times cb.failure_threshold ⟨true, 0, none⟩
      = ⟨false, cb.failure_threshold,
         some (times (cb.failure_threshold - 1) + cb.cooldown_seconds)⟩ := by
  obtain ⟨k, hk⟩ := Nat.exists_eq_succ_of_ne_zero (Nat.pos_iff_ne_zero.mp hpos)
  have hlt : k < cb.failure_threshold := by omega
  have hge : cb.failure_threshold ≤ k + 1 := by omega
  rw [hk]
  simp only [iterFailures, iterFailures_lt cb times k hlt]
  simp [record_failure, get_state, hge, hk]

/-- C1: from a fresh CLOSED deployment, `failure_threshold` consecutive
failures open the circuit exactly once — every strict prefix leaves it
healthy with a null cooldown, and the final failure at time `t` sets
`is_healthy = false` and `cooldown_until = t + cooldown_seconds`; a
success resets `consecutive_failures` to `0`, restores
`is_healthy = true` and clears `cooldown_until` (given the data-model
invariant that a healthy row has no cooldown); and a failure recorded
in HALF_OPEN sets `is_healthy = false` and
`cooldown_until = now + 2 × cooldown_seconds`. -/
theorem circuit_breaker_transitions (cb : CircuitBreaker) :
    (∀ times : Nat → Int,
        (∀ i, i < cb.failure_threshold →
          iterFailures cb times i ⟨true, 0, none⟩ = ⟨true, i, none⟩)
        ∧ (0 < cb.failure_threshold →
          iterFailures cb times cb.failure_threshold ⟨true, 0, none⟩
            = ⟨false, cb.failure_threshold,
               some (times (cb.failure_threshold - 1) + cb.cooldown_seconds)⟩))
    ∧ (∀ d : Deployment, (d.is_healthy = true → d.cooldown_until = none) →
        record_success d = ⟨true, 0, none⟩)
    ∧ (∀ (now : Int) (d : Deployment), get_state now d = .halfOpen →
        record_failure cb now d
          = ⟨false, d.consecutive_failures + 1,
             some (now + 2 * cb.cooldown_seconds)⟩) := by
  refine ⟨fun times => ⟨iterFailures_lt cb times, iterFailures_at_threshold cb times⟩,
    ?_, ?_⟩
  · rintro ⟨hh, cf, cd⟩ hinv
    cases hh with
    | false => simp [record_success]
    | true =>
        have : cd = none := hinv rfl
        subst this
        rcases Nat.eq_zero_or_pos cf with h0 | hpos
        · subst h0; simp [record_success]
        · simp [record_success, Nat.pos_iff_ne_zero.mp hpos]
  · rintro now ⟨hh, cf, cd⟩ h
    have hstate : get_state now ⟨hh, cf + 1, cd⟩ = .halfOpen := h
    simp [record_failure, hstate, Int.mul_comm]

/-- Witness for C1 at the default breaker (`threshold=3`,
`cooldown=60`): three failures at time `100` open the circuit with
cooldown `160`; a success on an unhealthy row resets it; a HALF_OPEN
failure at time `5` re-opens with cooldown `5 + 120`. -/
theorem circuit_breaker_transitions_witness :
    iterFailures defaultBreaker (fun _ => 100) 3 ⟨true, 0, none⟩
        = ⟨false, 3, some 160⟩
      ∧ record_success ⟨false, 2, some 7⟩ = ⟨true, 0, none⟩
      ∧ record_failure defaultBreaker 5 ⟨false, 1, some 3⟩
        = ⟨false, 2, some 125⟩ := by
  refine ⟨?_, ?_, ?_⟩
  · have h := ((circuit_breaker_transitions defaultBreaker).1 (fun _ => 100)).2
      (by decide)
    simpa using h
  · exact (circuit_breaker_transitions defaultBreaker).2.1 ⟨false, 2, some 7⟩
      (by decide)
  · have h := (circuit_breaker_transitions defaultBreaker).2.2 5 ⟨false, 1, some 3⟩
      (by decide)
    simpa using h

/-! ### C7 — cost formula -/

/-- C7: `calculate_cost(model, p, c)` equals
`(p × input_cost_per_1m + c × output_cost_per_1m) / 1_000_000`
quantized to 8 fractional digits, and is exactly `0` for a model
absent from the pricing table. -/
theorem calculate_cost_formula (pricing : PricingTable) (model : String)
    (p c : Nat) :
    (∀ pr, pricing model = some pr →
      calculate_cost pricing model p c
        = quantize8 ((p * pr.input_cost_per_1m + c * pr.output_cost_per_1m) / 1000000))
    ∧ (pricing model = none → calculate_cost pricing model p c = 0) := by
  constructor
  · intro pr h
    simp only [calculate_cost, h]
    congr 1
    ring
  · intro h
    simp [calculate_cost, h]

/-- A two-row pricing table for the cost witness. -/
def witnessPricing : PricingTable :=
  fun m => if m = "gpt-4o" then some ⟨5/2, 10⟩ else none

/-- Witness for C7 at a priced and an unpriced model. -/
theorem calculate_cost_formula_witness :
    calculate_cost witnessPricing "gpt-4o" 1000 500
        = quantize8 ((1000 * (5/2 : ℚ) + 500 * 10) / 1000000)
      ∧ calculate_cost witnessPricing "other" 3 4 = 0 := by
  constructor
  · exact (calculate_cost_formula witnessPricing "gpt-4o" 1000 500).1
      ⟨5/2, 10⟩ (by rfl)
  · exact (calculate_cost_formula witnessPricing "other" 3 4).2 (by rfl)

/-! ### C6 — injection scan aggregation -/

lemma foldl_max_shift (l : List ℚ) :
    ∀ a b : ℚ, l.foldl max (max a b) = max a (l.foldl max b) := by
  induction l with
  | nil => intro a b; rfl
  | cons x t ih =>
      intro a b
      simp only [List.foldl_cons]
      rw [max_assoc, ih]

lemma foldl_max_init_le (l : List ℚ) : ∀ a : ℚ, a ≤ l.foldl max a := by
  induction l with
  | nil => intro a; exact le_refl a
  | cons x t ih =>
      intro a
      exact le_trans (le_max_left a x) (ih (max a x))

lemma foldl_max_flatten (L : List (List ℚ)) :
    (L.map (fun l => l.foldl max 0)).foldl max 0 = L.flatten.foldl max 0 := by
  induction L with
  | nil => rfl
  | cons l T ih =>
      simp only [List.map_cons, List.foldl_cons, List.flatten_cons,
        List.foldl_append]
      have h0 : (0 : ℚ) ≤ l.foldl max 0 := foldl_max_init_le l 0
      have h1 : max 0 (l.foldl max 0) = l.foldl max 0 := max_eq_right h0
      rw [h1]
      have h2 : l.foldl max 0 = max (l.foldl max 0) 0 := (max_eq_left h0).symm
      calc (T.map (fun l => l.foldl max 0)).foldl max (l.foldl max 0)
          = (T.map (fun l => l.foldl max 0)).foldl max (max (l.foldl max 0) 0) := by
            rw [← h2]
        _ = max (l.foldl max 0) ((T.map (fun l => l.foldl max 0)).foldl max 0) :=
            foldl_max_shift _ _ _
        _ = max (l.foldl max 0) (T.flatten.foldl max 0) := by rw [ih]
        _ = T.flatten.foldl max (max (l.foldl max 0) 0) :=
            (foldl_max_shift T.flatten (l.foldl max 0) 0).symm
        _ = T.flatten.foldl max (l.foldl max 0) := by rw [← h2]

lemma pyMaxScore_eq_foldl (ds : List InjectionDetection)
    (h : ∀ d ∈ ds, 0 ≤ d.score) :
    pyMaxScore ds = (ds.map (fun d => d.score)).foldl max 0 := by
  cases ds with
  | nil => rfl
  | cons d rest =>
      simp only [pyMaxScore, List.map_cons, List.foldl_cons]
      have : max 0 d.score = d.score := max_eq_right (h d (by simp))
      rw [this, List.foldl_map]

lemma scan_injection_score_def (O : RegexOracle) (s : String) (t : ℚ) :
    (scan_injection O s t []).score = pyMaxScore (scan_injection O s t []).detections := rfl

lemma scan_injection_detections_nonneg (O : RegexOracle) (s : String) (t : ℚ) :
    ∀ d ∈ (scan_injection O s t []).detections, 0 ≤ d.score := by
  intro d hd
  have hpat : ∀ p ∈ injectionPatterns, (0 : ℚ) ≤ p.2 := by
    intro p hp
    fin_cases hp <;> norm_num
  simp only [scan_injection, List.filterMap_nil, List.append_nil] at hd
  rw [List.mem_append] at hd
  rcases hd with hd | hd
  · rw [List.mem_append] at hd
    rcases hd with hd | hd
    · obtain ⟨p, hp, hf⟩ := List.mem_filterMap.mp hd
      split at hf
      · rw [← Option.some.inj hf]
        exact hpat p hp
      · exact absurd hf (by simp)
    · split at hd
      next hpos =>
        rcases List.mem_singleton.mp hd with rfl
        exact le_of_lt hpos
      next => simp at hd
  · split at hd
    next hpos =>
      rcases List.mem_singleton.mp hd with rfl
      exact le_of_lt hpos
    next => simp at hd

lemma foldl_maxscore_eq_pyMax (results : List InjectionScanResult)
    (hnn : ∀ r ∈ results, ∀ d ∈ r.detections, 0 ≤ d.score)
    (hsc : ∀ r ∈ results, r.score = pyMaxScore r.detections) :
    results.foldl (fun m r => max m r.score) 0
      = pyMaxScore ((results.map (fun r => r.detections)).flatten) := by
  induction results with
  | nil => rfl
  | cons r T ih =>
      have hr_nn : ∀ d ∈ r.detections, 0 ≤ d.score := hnn r (by simp)
      have hT_nn : ∀ x ∈ T, ∀ d ∈ x.detections, 0 ≤ d.score :=
        fun x hx => hnn x (by simp [hx])
      have hT_sc : ∀ x ∈ T, x.score = pyMaxScore x.detections :=
        fun x hx => hsc x (by simp [hx])
      have ihT := ih hT_nn hT_sc
      have hflatT_nn : ∀ d ∈ ((T.map (fun x => x.detections)).flatten), 0 ≤ d.score := by
        intro d hd
        obtain ⟨ds, hds, hdin⟩ := List.mem_flatten.mp hd
        obtain ⟨x, hx, rfl⟩ := List.mem_map.mp hds
        exact hT_nn x hx d hdin
      have hall_nn : ∀ d ∈ (((r :: T).map (fun x => x.detections)).flatten), 0 ≤ d.score := by
        intro d hd
        simp only [List.map_cons, List.flatten_cons, List.mem_append] at hd
        rcases hd with hd | hd
        · exact hr_nn d hd
        · exact hflatT_nn d hd
      have key : ∀ (s : ℚ) (l : List ℚ), 0 ≤ s →
          max s (l.foldl max 0) = l.foldl max s := by
        intro s l hs
        have h := foldl_max_shift l s 0
        rw [max_eq_left hs] at h
        exact h.symm
      have hs0 : (0 : ℚ) ≤ r.score := by
        rw [hsc r (by simp), pyMaxScore_eq_foldl _ hr_nn]
        exact foldl_max_init_le _ 0
      calc (r :: T).foldl (fun m x => max m x.score) 0
          = T.foldl (fun m x => max m x.score) (max 0 r.score) := by
            simp only [List.foldl_cons]
        _ = T.foldl (fun m x => max m x.score) r.score := by
            rw [max_eq_right hs0]
        _ = (T.map (fun x => x.score)).foldl max r.score :=
            (List.foldl_map _ _ _ _).symm
        _ = max r.score ((T.map (fun x => x.score)).foldl max 0) :=
            (key r.score _ hs0).symm
        _ = max r.score (T.foldl (fun m x => max m x.score) 0) := by
            rw [List.foldl_map]
        _ = max r.score (pyMaxScore ((T.map (fun x => x.detections)).flatten)) := by
            rw [ihT]
        _ = pyMaxScore (((r :: T).map (fun x => x.detections)).flatten) := by
            rw [pyMaxScore_eq_foldl _ hflatT_nn, pyMaxScore_eq_foldl _ hall_nn]
            simp only [List.map_cons, List.flatten_cons, List.map_append,
              List.foldl_append]
            rw [hsc r (by simp), pyMaxScore_eq_foldl _ hr_nn]
            exact key _ _ (foldl_max_init_le _ 0)

lemma scanTexts_filter_system (messages : List Msg) :
    ((messages.filter (fun m => !(m.role == "system"))).map messageScanTexts).flatten
      = (messages.map messageScanTexts).flatten := by
  induction messages with
  | nil => rfl
  | cons m t ih =>
      by_cases h : m.role = "system"
      · simp [List.filter_cons, messageScanTexts, h, ih]
      · simp [List.filter_cons, messageScanTexts, h, ih]

/-- C6: scanning a message list never scans system-role messages (the
scan result is unchanged when they are removed); the overall score is
the maximum over all detections collected from non-system content
(`0` when there are none, Python `max(..., default=0.0)`); and the
input is flagged as an injection iff that score reaches the
threshold. -/
theorem scan_messages_injection_spec (O : RegexOracle) (messages : List Msg)
    (threshold : ℚ) :
    scan_messages_injection O messages threshold
        = scan_messages_injection O
            (messages.filter (fun m => !(m.role == "system"))) threshold
      ∧ (scan_messages_injection O messages threshold).score
        = pyMaxScore (scan_messages_injection O messages threshold).detections
      ∧ ((scan_messages_injection O messages threshold).is_injection = true
          ↔ threshold ≤ (scan_messages_injection O messages threshold).score) := by
  refine ⟨?_, ?_, ?_⟩
  · unfold scan_messages_injection
    rw [scanTexts_filter_system]
  · have hnn : ∀ r ∈ ((messages.map messageScanTexts).flatten).map
        (fun s => scan_injection O s threshold []),
        ∀ d ∈ r.detections, 0 ≤ d.score := by
      intro r hr
      obtain ⟨s, _, rfl⟩ := List.mem_map.mp hr
      exact scan_injection_detections_nonneg O s threshold
    have hsc : ∀ r ∈ ((messages.map messageScanTexts).flatten).map
        (fun s => scan_injection O s threshold []),
        r.score = pyMaxScore r.detections := by
      intro r hr
      obtain ⟨s, _, rfl⟩ := List.mem_map.mp hr
      rfl
    exact foldl_maxscore_eq_pyMax _ hnn hsc
  · unfold scan_messages_injection
    simp [ge_iff_le]

/-! ### C3 — semantic cache lookup -/

lemma foldlMin_spec (dist : CacheEntry → ℚ) :
    ∀ (cs : List CacheEntry) (c : CacheEntry),
      (cs.foldl (fun best e => if dist e < dist best then e else best) c = c
        ∨ cs.foldl (fun best e => if dist e < dist best then e else best) c ∈ cs)
      ∧ dist (cs.foldl (fun best e => if dist e < dist best then e else best) c) ≤ dist c
      ∧ ∀ x ∈ cs,
          dist (cs.foldl (fun best e => if dist e < dist best then e else best) c) ≤ dist x := by
  intro cs
  induction cs with
  | nil => intro c; exact ⟨.inl rfl, le_refl _, by simp⟩
  | cons x t ih =>
      intro c
      simp only [List.foldl_cons]
      by_cases h : dist x < dist c
      · rw [if_pos h]
        obtain ⟨hmem, hle, hall⟩ := ih x
        refine ⟨?_, le_trans hle (le_of_lt h), ?_⟩
        · rcases hmem with h1 | h1
          · exact .inr (by simp [h1])
          · exact .inr (List.mem_cons_of_mem _ h1)
        · intro y hy
          rcases List.mem_cons.mp hy with rfl | hy
          · exact hle
          · exact hall y hy
      · rw [if_neg h]
        obtain ⟨hmem, hle, hall⟩ := ih c
        refine ⟨?_, hle, ?_⟩
        · rcases hmem with h1 | h1
          · exact .inl h1
          · exact .inr (List.mem_cons_of_mem _ h1)
        · intro y hy
          rcases List.mem_cons.mp hy with rfl | hy
          · exact le_trans hle (not_lt.mp h)
          · exact hall y hy

lemma selectMinDist_none (dist : CacheEntry → ℚ) (l : List CacheEntry) :
    selectMinDist dist l = none ↔ l = [] := by
  cases l <;> simp [selectMinDist]

lemma selectMinDist_spec (dist : CacheEntry → ℚ) (l : List CacheEntry) (e : CacheEntry)
    (h : selectMinDist dist l = some e) :
    e ∈ l ∧ ∀ x ∈ l, dist e ≤ dist x := by
  cases l with
  | nil => simp [selectMinDist] at h
  | cons c t =>
      simp only [selectMinDist, Option.some.injEq] at h
      subst h
      obtain ⟨hmem, hle, hall⟩ := foldlMin_spec dist t c
      constructor
      · rcases hmem with h1 | h1
        · rw [h1]; exact List.mem_cons_self c t
        · exact List.mem_cons_of_mem _ h1
      · intro x hx
        rcases List.mem_cons.mp hx with rfl | hx
        · exact hle
        · exact hall x hx

lemma semanticAccepts_iff (model : String) (now : Int) (threshold : ℚ)
    (dist : CacheEntry → ℚ) (e : CacheEntry) :
    semanticAccepts model now threshold dist e ↔
      (e.model = model ∧ e.expires_at > now ∧ 1 - dist e > threshold) := by
  unfold semanticAccepts
  constructor
  · rintro ⟨h1, h2, h3⟩; exact ⟨h1, h2, by linarith⟩
  · rintro ⟨h1, h2, h3⟩; exact ⟨h1, h2, by linarith⟩

lemma exactGet_exactSet_self (tier : ExactTier) (k : String) (p : Payload) :
    exactGet (exactSet tier k p) k = some p := by
  simp [exactGet, exactSet]

/-- Distance oracle placing the boundary entry at similarity exactly
`0.95`. -/
def c3BoundaryDist : CacheEntry → ℚ := fun _ => 1/20

/-- Distance oracle for the C3 witness (similarity `1 - 1/25`). -/
def c3WitnessDist : CacheEntry → ℚ := fun _ => 1/25

/-- A stored row whose distance puts its cosine similarity exactly at
the threshold `0.95`. -/
def c3BoundaryEntry : CacheEntry :=
  { prompt_hash := "m::user: hi"
    model := "m"
    prompt_text := "user: hi"
    response_payload := ⟨"cached", ⟨1, 1, 2⟩⟩
    prompt_tokens := 1
    completion_tokens := 1
    hit_count := 0
    cost_saved_usd := 0
    expires_at := 10 }

/-- C3 counterexample: a model-matching, unexpired entry at cosine
similarity exactly the threshold (`1 - 1/20 = 19/20 ≥ 19/20`, as the
claim's `≥` requires) is nevertheless rejected — the SQL filter uses
the strict inequality `distance < 1 - threshold`. -/
theorem semantic_threshold_counterexample :
    (1 - c3BoundaryDist c3BoundaryEntry ≥ 19/20)
      ∧ c3BoundaryEntry.model = "m"
      ∧ c3BoundaryEntry.expires_at > 0
      ∧ semanticSelect [c3BoundaryEntry] "m" 0 (19/20) c3BoundaryDist = none := by
  refine ⟨by norm_num [c3BoundaryDist], rfl, by norm_num [c3BoundaryEntry], ?_⟩
  have hrej : ¬ semanticAccepts "m" 0 (19/20) c3BoundaryDist c3BoundaryEntry := by
    rintro ⟨-, -, h3⟩
    norm_num [c3BoundaryDist] at h3
  have hdec : decide (semanticAccepts "m" 0 (19/20) c3BoundaryDist c3BoundaryEntry)
      = false := decide_eq_false hrej
  unfold semanticSelect
  rw [List.filter_cons, hdec]
  simp [selectMinDist]

/-- C3 (amended): a Tier-2 lookup accepts a stored entry iff it
matches the model, is unexpired, and its cosine similarity is
**strictly greater** than the threshold; among accepted candidates one
of minimal distance is returned; and on such a hit the entry's
`hit_count` is incremented, the computed cost is added to
`cost_saved_usd`, and the payload is promoted into Tier 1 under the
request's exact-hash key. -/
theorem semantic_lookup_spec (entries : List CacheEntry) (model : String)
    (now : Int) (t : ℚ) (dist : CacheEntry → ℚ) :
    (semanticSelect entries model now t dist = none ↔
      ∀ e ∈ entries, ¬ (e.model = model ∧ e.expires_at > now ∧ 1 - dist e > t))
    ∧ (∀ e, semanticSelect entries model now t dist = some e →
        (e ∈ entries ∧ e.model = model ∧ e.expires_at > now ∧ 1 - dist e > t)
        ∧ ∀ x ∈ entries, x.model = model → x.expires_at > now → 1 - dist x > t →
            dist e ≤ dist x)
    ∧ (∀ (pricing : PricingTable) (st : CacheState) (messages : List Msg) (e : CacheEntry),
        pyStrip (normalize_prompt_for_embedding messages) ≠ "" →
        exactGet st.exact
          (compute_hash (normalize_prompt_for_embedding messages) model) = none →
        semanticSelect st.semantic model now t dist = some e →
        (manager_lookup true pricing st messages model now t dist).result
            = ⟨true, some e.response_payload, "semantic", 0⟩
        ∧ exactGet (manager_lookup true pricing st messages model now t dist).state.exact
            (compute_hash (normalize_prompt_for_embedding messages) model)
            = some e.response_payload
        ∧ bumpEntry pricing model e
            ∈ (manager_lookup true pricing st messages model now t dist).state.semantic
        ∧ (bumpEntry pricing model e).hit_count = e.hit_count + 1
        ∧ (bumpEntry pricing model e).cost_saved_usd
            = e.cost_saved_usd
              + calculate_cost pricing model e.prompt_tokens e.completion_tokens) := by
  refine ⟨?_, ?_, ?_⟩
  · unfold semanticSelect
    rw [selectMinDist_none, List.filter_eq_nil_iff]
    simp only [decide_eq_true_eq, semanticAccepts_iff]
  · intro e h
    unfold semanticSelect at h
    obtain ⟨hmem, hmin⟩ := selectMinDist_spec dist _ e h
    obtain ⟨he_in, he_acc⟩ := List.mem_filter.mp hmem
    have he_acc2 := (semanticAccepts_iff model now t dist e).mp (of_decide_eq_true he_acc)
    refine ⟨⟨he_in, he_acc2⟩, ?_⟩
    intro x hx h1 h2 h3
    exact hmin x (List.mem_filter.mpr
      ⟨hx, decide_eq_true ((semanticAccepts_iff model now t dist x).mpr ⟨h1, h2, h3⟩)⟩)
  · intro pricing st messages e hne hexact hsel
    have hmem : e ∈ st.semantic := by
      unfold semanticSelect at hsel
      exact (List.mem_filter.mp (selectMinDist_spec dist _ e hsel).1).1
    have hlookup :
        manager_lookup true pricing st messages model now t dist
          = ⟨⟨true, some (bumpEntry pricing model e).response_payload, "semantic", 0⟩,
             ⟨exactSet st.exact
                (compute_hash (normalize_prompt_for_embedding messages) model)
                (bumpEntry pricing model e).response_payload,
              st.semantic.map (fun x => if x = e then bumpEntry pricing model e else x)⟩,
             [compute_hash (normalize_prompt_for_embedding messages) model], true⟩ := by
      unfold manager_lookup semantic_lookup
      rw [if_neg (by simp)]
      simp only [if_neg hne, hexact, hsel]
    have hpayload : (bumpEntry pricing model e).response_payload = e.response_payload := rfl
    refine ⟨?_, ?_, ?_, rfl, rfl⟩
    · rw [hlookup, hpayload]
    · rw [hlookup]
      simp only [hpayload]
      exact exactGet_exactSet_self _ _ _
    · rw [hlookup]
      exact List.mem_map.mpr ⟨e, hmem, by simp⟩

/-- Concrete messages, payload, entry and state for the C3 witness. -/
def c3Msgs : List Msg := [⟨"user", .str "hi"⟩]

def c3Payload : Payload := ⟨"cached answer", ⟨2, 3, 5⟩⟩

def c3HitEntry : CacheEntry :=
  { prompt_hash := "m::user: hello"
    model := "m"
    prompt_text := "user: hello"
    response_payload := c3Payload
    prompt_tokens := 2
    completion_tokens := 3
    hit_count := 4
    cost_saved_usd := 1/2
    expires_at := 100 }

def c3State : CacheState := ⟨[], [c3HitEntry]⟩

/-- Witness for C3 (amended) on a one-entry table at similarity
`1 - 1/25 > 0.95`. -/
theorem semantic_lookup_spec_witness :
    (manager_lookup true witnessPricing c3State c3Msgs "m" 0 (19/20)
        c3WitnessDist).result
        = ⟨true, some c3Payload, "semantic", 0⟩
      ∧ exactGet (manager_lookup true witnessPricing c3State c3Msgs "m" 0 (19/20)
            c3WitnessDist).state.exact
          (compute_hash (normalize_prompt_for_embedding c3Msgs) "m")
        = some c3Payload
      ∧ bumpEntry witnessPricing "m" c3HitEntry
          ∈ (manager_lookup true witnessPricing c3State c3Msgs "m" 0 (19/20)
              c3WitnessDist).state.semantic
      ∧ (bumpEntry witnessPricing "m" c3HitEntry).hit_count = c3HitEntry.hit_count + 1
      ∧ (bumpEntry witnessPricing "m" c3HitEntry).cost_saved_usd
          = c3HitEntry.cost_saved_usd
            + calculate_cost witnessPricing "m" c3HitEntry.prompt_tokens
                c3HitEntry.completion_tokens := by
  have hacc : semanticAccepts "m" 0 (19/20) c3WitnessDist c3HitEntry := by
    refine ⟨rfl, by norm_num [c3HitEntry], by norm_num [c3WitnessDist]⟩
  have hdec : decide (semanticAccepts "m" 0 (19/20) c3WitnessDist c3HitEntry)
      = true := decide_eq_true hacc
  have hsel : semanticSelect [c3HitEntry] "m" 0 (19/20) c3WitnessDist
      = some c3HitEntry := by
    unfold semanticSelect
    rw [List.filter_cons, hdec]
    simp [selectMinDist]
  exact (semantic_lookup_spec [] "m" 0 (19/20) c3WitnessDist).2.2
    witnessPricing c3State c3Msgs c3HitEntry (by decide) rfl hsel

/-! ### C4 — rate-limiter fail-open -/

/-- A non-master principal with an RPM limit of 60, for the C4
counterexample. -/
def c4Key : APIKey :=
  { id := "k1", key_hash := "hash1", allowed_models := none,
    budget_limit_usd := none, spend_usd := 0,
    rate_limit_rpm := some 60, rate_limit_tpm := none }

/-- C4 counterexample: with the KV unreachable, the check fails open
(`allowed=true`) and logs a warning — but the gateway still emits the
full `x-ratelimit-*` header triple (with `remaining = limit`,
`reset = 0`), not an empty header set as the claim states. -/
theorem rate_limit_failopen_counterexample :
    (rate_check .connectionError 60).1.allowed = true
      ∧ (rate_check .connectionError 60).2 = true
      ∧ check_rate_limits c4Key .connectionError
          = .ok (to_headers ⟨true, 60, 60, 0⟩ "requests", some ⟨true, 60, 60, 0⟩, true)
      ∧ to_headers ⟨true, 60, 60, 0⟩ "requests" ≠ [] := by
  refine ⟨rfl, rfl, ?_, by simp [to_headers]⟩
  rw [check_rate_limits, if_neg (by decide)]
  rfl

/-- C4 (amended): when the shared KV is unreachable the check returns
`allowed=true` (the request proceeds) and the warning is logged, but
the response carries the full `x-ratelimit-*` header triple computed
from the fail-open result (`remaining` clamped at `limit`, `reset`
`0`), not an empty set. -/
theorem rate_limit_failopen (api_key : APIKey) (limit : Nat)
    (hmaster : api_key.key_hash ≠ "master")
    (hrpm : api_key.rate_limit_rpm = some limit) (hpos : limit ≠ 0) :
    rate_check .connectionError limit = (⟨true, limit, limit, 0⟩, true)
      ∧ check_rate_limits api_key .connectionError
          = .ok (to_headers ⟨true, limit, limit, 0⟩ "requests",
                 some ⟨true, limit, limit, 0⟩, true)
      ∧ to_headers ⟨true, limit, (limit : Int), (0 : ℚ)⟩ "requests"
          = [("x-ratelimit-limit-requests", toString limit),
             ("x-ratelimit-remaining-requests", toString (max 0 (limit : Int))),
             ("x-ratelimit-reset-requests", toString (0 : ℚ))] := by
  refine ⟨rfl, ?_, rfl⟩
  rw [check_rate_limits, if_neg hmaster, hrpm]
  simp only [hpos, if_false]
  rfl

/-- Witness for C4 (amended) at the concrete principal `c4Key`. -/
theorem rate_limit_failopen_witness :
    rate_check .connectionError 60 = (⟨true, 60, 60, 0⟩, true)
      ∧ check_rate_limits c4Key .connectionError
          = .ok (to_headers ⟨true, 60, 60, 0⟩ "requests",
                 some ⟨true, 60, 60, 0⟩, true)
      ∧ to_headers ⟨true, 60, (60 : Int), (0 : ℚ)⟩ "requests"
          = [("x-ratelimit-limit-requests", toString (60 : Nat)),
             ("x-ratelimit-remaining-requests", toString (max 0 (60 : Int))),
             ("x-ratelimit-reset-requests", toString (0 : ℚ))] :=
  rate_limit_failopen c4Key 60 (by decide) rfl (by decide)

/-! ### C8 — cache clear -/

/-- Payload and entry for model `"b"`, used to show `clear("a")` also
destroys `"b"`-keyed data in the exact tier. -/
def c8PayloadB : Payload := ⟨"respB", ⟨1, 1, 2⟩⟩

def c8EntryB : CacheEntry :=
  { prompt_hash := "b::user: q"
    model := "b"
    prompt_text := "user: q"
    response_payload := c8PayloadB
    prompt_tokens := 1
    completion_tokens := 1
    hit_count := 0
    cost_saved_usd := 0
    expires_at := 100 }

def c8State : CacheState := ⟨[("b::user: q", c8PayloadB)], [c8EntryB]⟩

/-- C8 counterexample: `clear("a")` must, per the claim, leave the
model-`"b"` entry present in **both** tiers; the semantic tier keeps
it, but the exact tier is wiped entirely (its `clear` never consults
the model argument). -/
theorem cache_clear_counterexample :
    exactGet c8State.exact "b::user: q" = some c8PayloadB
      ∧ c8EntryB ∈ (manager_clear (some "a") c8State).1.semantic
      ∧ exactGet (manager_clear (some "a") c8State).1.exact "b::user: q" = none := by
  refine ⟨by decide, ?_, by decide⟩
  decide

/-- C8 (amended): `clear(model)` removes exactly the matching rows
from the **semantic** tier (an entry survives iff it was present and
has a different model), but wipes the **exact** tier entirely
regardless of the model argument; `clear()` with no model wipes both
tiers. -/
theorem manager_clear_spec (st : CacheState) :
    (∀ m : String, m ≠ "" →
      (∀ e, e ∈ (manager_clear (some m) st).1.semantic ↔
          (e ∈ st.semantic ∧ e.model ≠ m))
        ∧ (manager_clear (some m) st).1.exact = [])
    ∧ (manager_clear none st).1.semantic = []
    ∧ (manager_clear none st).1.exact = [] := by
  refine ⟨?_, rfl, rfl⟩
  intro m hm
  constructor
  · intro e
    simp [manager_clear, semantic_clear, hm, List.mem_filter, and_comm]
  · rfl

/-- Witness for C8 (amended) at `c8State` and model `"a"`. -/
theorem manager_clear_spec_witness :
    (c8EntryB ∈ (manager_clear (some "a") c8State).1.semantic ↔
        (c8EntryB ∈ c8State.semantic ∧ c8EntryB.model ≠ "a"))
      ∧ (manager_clear (some "a") c8State).1.exact = [] := by
  have h := (manager_clear_spec c8State).1 "a" (by decide)
  exact ⟨h.1 c8EntryB, h.2⟩

/-! ### C10 — cache bypass on an empty normalized prompt -/

/-- C10: when the normalized prompt is empty after stripping (for
example, every message has role `"system"` or contributes no text),
the cache subsystem is bypassed entirely: lookup returns a miss with
no Tier-1 read and no Tier-2 query, and store leaves both tiers
unchanged. -/
theorem empty_prompt_cache_bypass (enabled : Bool) (pricing : PricingTable)
    (st : CacheState) (messages : List Msg) (model : String) (now : Int)
    (t : ℚ) (dist : CacheEntry → ℚ) (payload : Payload) (pt ct : Nat) (ttl : Int)
    (h : pyStrip (normalize_prompt_for_embedding messages) = "") :
    manager_lookup enabled pricing st messages model now t dist
        = ⟨⟨false, none, "none", 0⟩, st, [], false⟩
      ∧ manager_store enabled st messages model payload pt ct now ttl = st := by
  constructor
  · cases enabled <;> simp [manager_lookup, h]
  · cases enabled <;> simp [manager_store, h]

/-- Witness for C10 on an all-system message list. -/
theorem empty_prompt_cache_bypass_witness :
    manager_lookup true witnessPricing c3State [⟨"system", .str "be helpful"⟩]
        "m" 0 (19/20) c3WitnessDist
        = ⟨⟨false, none, "none", 0⟩, c3State, [], false⟩
      ∧ manager_store true c3State [⟨"system", .str "be helpful"⟩] "m"
          c3Payload 1 1 0 3600 = c3State :=
  empty_prompt_cache_bypass true witnessPricing c3State
    [⟨"system", .str "be helpful"⟩] "m" 0 (19/20) c3WitnessDist c3Payload 1 1 3600
    (by rfl)

/-! ### C2 — streaming post-stream side effects -/

/-- Guardrail oracle for concrete witnesses: enabled, no redaction, no
violations. -/
def wGuardrails : GuardrailOracle :=
  { enabled := true
    pre := fun _ _ => .ok (none, [])
    post := fun _ _ => [] }

def wDeployment : DeploymentInfo := ⟨"dep-1", "primary", "openai"⟩

def wResponse : ChatCompletionResponse := ⟨"hello there", ⟨7, 5, 12⟩⟩

/-- Concrete environment for witnesses: one healthy deployment whose
stream closes cleanly with usage `(7, 5)`. -/
def wEnv : Env :=
  { guardrails := wGuardrails
    cacheEnabled := true
    pricing := witnessPricing
    threshold := 19/20
    dist := fun _ _ => 1
    semanticTtl := 3600
    now := 0
    route := .ok [wDeployment]
    send := fun _ => .ok wResponse
    rlOutcome := .ok false 1 0
    countTokens := fun _ _ => 11
    countMessageTokens := fun _ _ => 9
    streamOutcome := fun _ => .clean 7 5 "hello there" }

/-- A non-master principal with a TPM limit but no RPM limit. -/
def wKey : APIKey :=
  { id := "key-1", key_hash := "hash-1", allowed_models := none,
    budget_limit_usd := none, spend_usd := 10,
    rate_limit_rpm := none, rate_limit_tpm := some 1000 }

def wStreamRequest : ChatCompletionRequest :=
  ⟨"gpt-4o", [⟨"user", .str "hi"⟩], true⟩

/-- C2 counterexample: in a streaming run whose upstream stream closes
cleanly, with guardrails enabled, the post-stream side effects contain
no post-response guardrail step — the claim's step 7 is skipped, not
"performed after the stream closes". -/
theorem streaming_skips_post_guardrails_counterexample :
    (stream_with_fallback wEnv wStreamRequest wKey "req-1" [wDeployment]).usedDeployment
        = some wDeployment
      ∧ (stream_with_fallback wEnv wStreamRequest wKey "req-1" [wDeployment]).interrupted
        = false
      ∧ wEnv.guardrails.enabled = true
      ∧ PipelineStep.postGuardrails
          ∉ (stream_with_fallback wEnv wStreamRequest wKey "req-1" [wDeployment]).trace := by
  refine ⟨by decide, by decide, rfl, by decide⟩

/-- C2 (amended): after a cleanly closed upstream stream the
orchestrator performs cost computation and spend update (step 8, spend
for non-master principals), TPM recording (step 9, when a TPM bucket
applies) and exactly one request-log append (step 11) — but skips the
cache steps (4 and 10) **and** post-response guardrails (step 7),
which the non-streaming pipeline does perform after a provider
success. -/
theorem streaming_post_stream_effects (env : Env) (request : ChatCompletionRequest)
    (api_key : APIKey) (request_id : String) (chain : List DeploymentInfo)
    (d : DeploymentInfo) (p0 c0 : Nat) (content : String)
    (hrun : stream_fallback_loop env.streamOutcome chain
      = .ok (d, (p0, c0, content), false)) :
    ((stream_with_fallback env request api_key request_id chain).logs.length = 1
      ∧ PipelineStep.costCalc
          ∈ (stream_with_fallback env request api_key request_id chain).trace
      ∧ PipelineStep.logAppend
          ∈ (stream_with_fallback env request api_key request_id chain).trace
      ∧ (api_key.key_hash ≠ "master" →
          PipelineStep.spendUpdate
            ∈ (stream_with_fallback env request api_key request_id chain).trace)
      ∧ ((stream_with_fallback env request api_key request_id chain).tpmUpdates ≠ [] →
          PipelineStep.tpmRecord
            ∈ (stream_with_fallback env request api_key request_id chain).trace)
      ∧ PipelineStep.postGuardrails
          ∉ (stream_with_fallback env request api_key request_id chain).trace
      ∧ PipelineStep.cacheLookup
          ∉ (stream_with_fallback env request api_key request_id chain).trace
      ∧ PipelineStep.cacheStore
          ∉ (stream_with_fallback env request api_key request_id chain).trace)
    ∧ (∀ (env2 : Env) (req2 : ChatCompletionRequest) (key2 : APIKey)
        (rid2 : String) (msgs2 : List Msg) (w2 : List String)
        (hdrs2 : List (String × String)) (st2 : CacheState)
        (tr2 : List PipelineStep) (chain2 : List DeploymentInfo)
        (d2 : DeploymentInfo) (r2 : ChatCompletionResponse),
        env2.route = .ok chain2 →
        try_deployments env2.send chain2 = .ok (d2, r2) →
        env2.guardrails.enabled = true →
        PipelineStep.postGuardrails
          ∈ (completion_tail env2 req2 key2 rid2 msgs2 w2 hdrs2 st2 tr2).trace) := by
  constructor
  · unfold stream_with_fallback
    rw [hrun]
    refine ⟨rfl, ?_, ?_, ?_, ?_, ?_, ?_, ?_⟩
    · by_cases hm : api_key.key_hash = "master" <;>
        simp [hm, List.mem_append]
    · by_cases hm : api_key.key_hash = "master" <;>
        simp [hm, List.mem_append]
    · intro hm
      simp [hm, List.mem_append]
    · intro htpm
      simp only at htpm
      simp [htpm, List.mem_append]
    · by_cases hm : api_key.key_hash = "master" <;> split <;> simp [hm]
    · by_cases hm : api_key.key_hash = "master" <;> split <;> simp [hm]
    · by_cases hm : api_key.key_hash = "master" <;> split <;> simp [hm]
  · intro env2 req2 key2 rid2 msgs2 w2 hdrs2 st2 tr2 chain2 d2 r2 hroute htry hgr
    simp [completion_tail, hroute, htry, hgr, List.mem_append]

/-- Witness for C2 (amended) at the concrete clean-close environment. -/
theorem streaming_post_stream_effects_witness :
    ((stream_with_fallback wEnv wStreamRequest wKey "req-1" [wDeployment]).logs.length = 1
      ∧ PipelineStep.costCalc
          ∈ (stream_with_fallback wEnv wStreamRequest wKey "req-1" [wDeployment]).trace
      ∧ PipelineStep.logAppend
          ∈ (stream_with_fallback wEnv wStreamRequest wKey "req-1" [wDeployment]).trace
      ∧ (wKey.key_hash ≠ "master" →
          PipelineStep.spendUpdate
            ∈ (stream_with_fallback wEnv wStreamRequest wKey "req-1" [wDeployment]).trace)
      ∧ ((stream_with_fallback wEnv wStreamRequest wKey "req-1" [wDeployment]).tpmUpdates ≠ [] →
          PipelineStep.tpmRecord
            ∈ (stream_with_fallback wEnv wStreamRequest wKey "req-1" [wDeployment]).trace)
      ∧ PipelineStep.postGuardrails
          ∉ (stream_with_fallback wEnv wStreamRequest wKey "req-1" [wDeployment]).trace
      ∧ PipelineStep.cacheLookup
          ∉ (stream_with_fallback wEnv wStreamRequest wKey "req-1" [wDeployment]).trace
      ∧ PipelineStep.cacheStore
          ∉ (stream_with_fallback wEnv wStreamRequest wKey "req-1" [wDeployment]).trace)
    ∧ (∀ (env2 : Env) (req2 : ChatCompletionRequest) (key2 : APIKey)
        (rid2 : String) (msgs2 : List Msg) (w2 : List String)
        (hdrs2 : List (String × String)) (st2 : CacheState)
        (tr2 : List PipelineStep) (chain2 : List DeploymentInfo)
        (d2 : DeploymentInfo) (r2 : ChatCompletionResponse),
        env2.route = .ok chain2 →
        try_deployments env2.send chain2 = .ok (d2, r2) →
        env2.guardrails.enabled = true →
        PipelineStep.postGuardrails
          ∈ (completion_tail env2 req2 key2 rid2 msgs2 w2 hdrs2 st2 tr2).trace) :=
  streaming_post_stream_effects wEnv wStreamRequest wKey "req-1" [wDeployment]
    wDeployment 7 5 "hello there" (by rfl)

/-! ### C5 — cache-hit bookkeeping -/

/-- C5: a request answered from the cache (either tier) returns the
cached payload as the response with provider `"cache"`, zero cost and
`cached=true`; appends exactly one request-log row with provider
`"cache"`, `cost_usd = 0`, `cached = true`, status 200; and leaves the
principal's spend unchanged. -/
theorem cache_hit_completion (env : Env) (request : ChatCompletionRequest)
    (api_key : APIKey) (request_id : String) (st : CacheState)
    (messages : List Msg) (warnings : List String) (payload : Payload)
    (rl_headers : List (String × String)) (rl : Option RateLimitResult) (w : Bool)
    (haccess : check_model_access api_key request.model = .ok ())
    (hbudget : check_budget api_key = .ok ())
    (hrl : check_rate_limits api_key env.rlOutcome = .ok (rl_headers, rl, w))
    (hmsgs : effectiveMessages env request = .ok (messages, warnings))
    (hcache : env.cacheEnabled = true) (hstream : request.stream = false)
    (hhit : (manager_lookup env.cacheEnabled env.pricing st messages request.model
        env.now env.threshold (env.dist messages)).result.hit = true)
    (hpayload : (manager_lookup env.cacheEnabled env.pricing st messages request.model
        env.now env.threshold (env.dist messages)).result.response_payload
          = some payload) :
    (create_completion env request api_key request_id st).result
        = .ok ⟨payload, 0, "cache", "cache", true, rl_headers, warnings⟩
      ∧ (create_completion env request api_key request_id st).logs
        = [⟨request_id, logKeyId api_key, none, request.model, "cache",
            payload.usage.prompt_tokens, payload.usage.completion_tokens, 0, 200, true⟩]
      ∧ (create_completion env request api_key request_id st).spend_usd
        = api_key.spend_usd := by
  rw [hcache] at hhit hpayload
  simp [create_completion, haccess, hbudget, hrl, hmsgs,
    completion_cache_phase, hcache, hstream, hhit, hpayload]

/-- Non-streaming witness request and a Tier-1 state holding its exact
entry. -/
def wRequestNS : ChatCompletionRequest :=
  ⟨"gpt-4o", [⟨"user", .str "hi"⟩], false⟩

def c5State : CacheState := ⟨[("gpt-4o::user: hi", c3Payload)], []⟩

/-- Witness for C5: a Tier-1 hit at the concrete environment. -/
theorem cache_hit_completion_witness :
    (create_completion wEnv wRequestNS wKey "req-2" c5State).result
        = .ok ⟨c3Payload, 0, "cache", "cache", true, [], []⟩
      ∧ (create_completion wEnv wRequestNS wKey "req-2" c5State).logs
        = [⟨"req-2", logKeyId wKey, none, "gpt-4o", "cache",
            c3Payload.usage.prompt_tokens, c3Payload.usage.completion_tokens, 0, 200, true⟩]
      ∧ (create_completion wEnv wRequestNS wKey "req-2" c5State).spend_usd
        = wKey.spend_usd :=
  cache_hit_completion wEnv wRequestNS wKey "req-2" c5State
    [⟨"user", .str "hi"⟩] [] c3Payload [] none false
    rfl rfl rfl rfl rfl rfl (by decide) (by decide)

/-! ### C9 — master-key isolation -/

lemma completion_tail_master (env : Env) (request : ChatCompletionRequest)
    (api_key : APIKey) (request_id : String) (messages : List Msg)
    (warnings : List String) (rl_headers : List (String × String))
    (st : CacheState) (trace0 : List PipelineStep)
    (hm : api_key.key_hash = "master") :
    (completion_tail env request api_key request_id messages warnings
        rl_headers st trace0).rlChecked = []
      ∧ (completion_tail env request api_key request_id messages warnings
          rl_headers st trace0).spend_usd = api_key.spend_usd
      ∧ (completion_tail env request api_key request_id messages warnings
          rl_headers st trace0).tpmUpdates = []
      ∧ ∀ log ∈ (completion_tail env request api_key request_id messages warnings
          rl_headers st trace0).logs, log.api_key_id = none := by
  have hrl : rlIdentifiers api_key = [] := by simp [rlIdentifiers, hm]
  have htpm : ∀ n, update_token_usage api_key n = [] := by
    intro n; simp [update_token_usage, hm]
  unfold completion_tail
  cases henv : env.route with
  | error e => simp [hrl]
  | ok chain =>
      cases htry : try_deployments env.send chain with
      | error le => simp [hrl, htry]
      | ok pr =>
          obtain ⟨d, response⟩ := pr
          simp [hrl, htry, htpm, hm, logKeyId]

lemma completion_cache_phase_master (env : Env) (request : ChatCompletionRequest)
    (api_key : APIKey) (request_id : String) (messages : List Msg)
    (warnings : List String) (rl_headers : List (String × String))
    (st : CacheState) (trace0 : List PipelineStep)
    (hm : api_key.key_hash = "master") :
    (completion_cache_phase env request api_key request_id messages warnings
        rl_headers st trace0).rlChecked = []
      ∧ (completion_cache_phase env request api_key request_id messages warnings
          rl_headers st trace0).spend_usd = api_key.spend_usd
      ∧ (completion_cache_phase env request api_key request_id messages warnings
          rl_headers st trace0).tpmUpdates = []
      ∧ ∀ log ∈ (completion_cache_phase env request api_key request_id messages
          warnings rl_headers st trace0).logs, log.api_key_id = none := by
  have hrl : rlIdentifiers api_key = [] := by simp [rlIdentifiers, hm]
  unfold completion_cache_phase
  by_cases hc : (env.cacheEnabled && !request.stream) = true
  · rw [if_pos hc]
    cases h1 : (manager_lookup env.cacheEnabled env.pricing st messages request.model
        env.now env.threshold (env.dist messages)).result.hit with
    | false =>
        simp only [h1]
        exact completion_tail_master env request api_key request_id messages
          warnings rl_headers _ _ hm
    | true =>
        cases h2 : (manager_lookup env.cacheEnabled env.pricing st messages
            request.model env.now env.threshold (env.dist messages)).result.response_payload with
        | none =>
            simp only [h1, h2]
            exact completion_tail_master env request api_key request_id messages
              warnings rl_headers _ _ hm
        | some payload =>
            simp only [h1, h2]
            simp [hrl, logKeyId, hm]
  · rw [if_neg hc]
    exact completion_tail_master env request api_key request_id messages
      warnings rl_headers _ _ hm

/-- C9: a request authenticated as the master principal
(`key_hash = "master"`) performs no rate-limit check (and no TPM
recording), leaves the principal's spend unchanged, and every
request-log row it writes carries a null `api_key_id` — on both the
non-streaming and the streaming path. -/
theorem master_key_isolation (env : Env) (request : ChatCompletionRequest)
    (api_key : APIKey) (request_id : String) (st : CacheState)
    (hm : api_key.key_hash = "master") :
    (create_completion env request api_key request_id st).rlChecked = []
      ∧ (create_completion env request api_key request_id st).spend_usd
        = api_key.spend_usd
      ∧ (create_completion env request api_key request_id st).tpmUpdates = []
      ∧ (∀ log ∈ (create_completion env request api_key request_id st).logs,
          log.api_key_id = none)
      ∧ (create_streaming_completion env request api_key request_id).rlChecked = []
      ∧ ∀ chain : List DeploymentInfo,
          (stream_with_fallback env request api_key request_id chain).spend_usd
              = api_key.spend_usd
            ∧ (stream_with_fallback env request api_key request_id chain).tpmUpdates = []
            ∧ ∀ log ∈ (stream_with_fallback env request api_key request_id chain).logs,
                log.api_key_id = none := by
  have hrl : rlIdentifiers api_key = [] := by simp [rlIdentifiers, hm]
  have htpm : ∀ n, update_token_usage api_key n = [] := by
    intro n; simp [update_token_usage, hm]
  have hstream : ∀ chain : List DeploymentInfo,
      (stream_with_fallback env request api_key request_id chain).spend_usd
          = api_key.spend_usd
        ∧ (stream_with_fallback env request api_key request_id chain).tpmUpdates = []
        ∧ ∀ log ∈ (stream_with_fallback env request api_key request_id chain).logs,
            log.api_key_id = none := by
    intro chain
    unfold stream_with_fallback
    cases hloop : stream_fallback_loop env.streamOutcome chain with
    | error e => simp
    | ok pr =>
        obtain ⟨d, ⟨p0, c0, content⟩, interrupted⟩ := pr
        simp [hm, htpm, logKeyId]
  have hnonstream :
      (create_completion env request api_key request_id st).rlChecked = []
        ∧ (create_completion env request api_key request_id st).spend_usd
          = api_key.spend_usd
        ∧ (create_completion env request api_key request_id st).tpmUpdates = []
        ∧ ∀ log ∈ (create_completion env request api_key request_id st).logs,
            log.api_key_id = none := by
    unfold create_completion
    cases h1 : check_model_access api_key request.model with
    | error e => simp
    | ok u =>
        cases h2 : check_budget api_key with
        | error e => simp
        | ok u2 =>
            cases h3 : check_rate_limits api_key env.rlOutcome with
            | error e => simp [hrl]
            | ok triple =>
                obtain ⟨rl_headers, rl, wflag⟩ := triple
                cases h4 : effectiveMessages env request with
                | error e => simp [hrl]
                | ok pr =>
                    obtain ⟨messages, warnings⟩ := pr
                    exact completion_cache_phase_master env request api_key
                      request_id messages warnings rl_headers st _ hm
  have hscall : (create_streaming_completion env request api_key request_id).rlChecked
      = [] := by
    unfold create_streaming_completion
    cases h1 : check_model_access api_key request.model with
    | error e => simp
    | ok u =>
        cases h2 : check_budget api_key with
        | error e => simp
        | ok u2 =>
            cases h3 : check_rate_limits api_key env.rlOutcome with
            | error e => simp [hrl]
            | ok triple =>
                obtain ⟨rl_headers, rl, wflag⟩ := triple
                cases h4 : effectiveMessages env request with
                | error e => simp [hrl]
                | ok pr =>
                    obtain ⟨messages, warnings⟩ := pr
                    cases h5 : env.route with
                    | error e => simp [hrl]
                    | ok chain => simp [hrl]
  exact ⟨hnonstream.1, hnonstream.2.1, hnonstream.2.2.1, hnonstream.2.2.2,
    hscall, hstream⟩

/-- Witness for C9 at the synthetic admin principal and the concrete
environment. -/
theorem master_key_isolation_witness :
    (create_completion wEnv wRequestNS syntheticAdminKey "req-3" c5State).rlChecked = []
      ∧ (create_completion wEnv wRequestNS syntheticAdminKey "req-3" c5State).spend_usd
        = syntheticAdminKey.spend_usd
      ∧ (create_completion wEnv wRequestNS syntheticAdminKey "req-3" c5State).tpmUpdates
        = []
      ∧ (∀ log ∈ (create_completion wEnv wRequestNS syntheticAdminKey "req-3"
          c5State).logs, log.api_key_id = none)
      ∧ (create_streaming_completion wEnv wRequestNS syntheticAdminKey "req-3").rlChecked
        = []
      ∧ ∀ chain : List DeploymentInfo,
          (stream_with_fallback wEnv wRequestNS syntheticAdminKey "req-3" chain).spend_usd
              = syntheticAdminKey.spend_usd
            ∧ (stream_with_fallback wEnv wRequestNS syntheticAdminKey "req-3"
                chain).tpmUpdates = []
            ∧ ∀ log ∈ (stream_with_fallback wEnv wRequestNS syntheticAdminKey "req-3"
                chain).logs, log.api_key_id = none :=
  master_key_isolation wEnv wRequestNS syntheticAdminKey "req-3" c5State rfl

end Conduit
